import Mathlib

/-!
Verification of the askenzo backend core (request-authorization-pagination-geo
pipeline) against its specification.

The Python sources are shallowly embedded:

* database tables become Lean lists of row structures; the SQLAlchemy query
  combinators `filter / order_by / offset / limit / first / all` become
  `List.filter`, a sort by ascending `id`, `List.drop`, `List.take`,
  `List.head?` / `List.find?`;
* SQL `ORDER BY id` (an external collaborator of the code) is modelled as
  `List.insertionSort` on the `id` field, i.e. as a sorted permutation of the
  filtered rows, which is all the relational engine guarantees;
* a Python function that may `raise HTTPException` becomes a function into
  `Except ApiError _`; raising maps to `Except.error`;
* Python truthiness tests on strings, lists, ints and `None` values are spelled
  out as emptiness / zero / `Option` tests;
* external libraries (bcrypt, shapely, PostGIS distance) are taken as
  parameters of the embedded functions, since the code under verification
  treats them as opaque collaborators.
-/

/-- Error outcomes of the HTTP layer: `HTTPException(status, detail)` raised by
the routers, plus the `TypeError` a Python-level misuse raises (calling
`re.search` on `None`). -/
inductive ApiError where
  | notFound (detail : String)
  | badRequest (detail : String)
  | unauthorized (detail : String)
  | forbidden (detail : String)
  | typeError
  deriving Repr, DecidableEq

/-- Row of the reflected `experiences` table (columns as used by the code:
`models.Experiences`). The `price` JSON dict and the `duration` time-of-day are
opaque payloads for the verified logic and are carried as plain data. -/
structure ExperienceRow where
  id : Nat
  title : String
  description : String
  difficulty_id : Int
  price : List (String × Int)
  duration : Nat
  img_preview_path : String
  img_paths : List String
  state_id : Int
  deriving Repr, DecidableEq

/-- Row of the reflected `discoveries` table (`models.Discovery`). The
`coordinate_gps` column holds the stored geometry, which reaches Python as a
hex string (EWKB). -/
structure DiscoveryRow where
  id : Nat
  title : String
  description : String
  img_preview_path : String
  img_paths : List String
  video_paths : List String
  coordinate_gps : String
  address : String
  kind_id : Int
  state_id : Int
  deriving Repr, DecidableEq

/-- SQL `ORDER BY experiences.id` modelled as a sort by ascending id. -/
def orderExperiencesById (rows : List ExperienceRow) : List ExperienceRow :=
  List.insertionSort (fun a b => a.id ≤ b.id) rows

/-- SQL `ORDER BY discoveries.id` modelled as a sort by ascending id. -/
def orderDiscoveriesById (rows : List DiscoveryRow) : List DiscoveryRow :=
  List.insertionSort (fun a b => a.id ≤ b.id) rows

namespace Crud

/-- crud.get_experience: `query(Experiences).filter(id == experience_id).first()`. -/
def get_experience (db : List ExperienceRow) (experience_id : Nat) :
    Option ExperienceRow :=
  (db.filter (fun r => r.id == experience_id)).head?

/-- crud.get_experiences: filter `state_id == 1`, order by id, optional
`offset(cursor)`, then `limit(limit + 1)`. The `cursor is None` and
`cursor` present branches of the source are both kept. -/
def get_experiences (db : List ExperienceRow) (cursor : Option Nat)
    (limit : Nat) : List ExperienceRow :=
  match cursor with
  | none =>
      ((orderExperiencesById (db.filter (fun r => r.state_id == 1))).take (limit + 1))
  | some c =>
      (((orderExperiencesById (db.filter (fun r => r.state_id == 1))).drop c).take (limit + 1))

/-- crud.get_discovery: `query(Discovery).filter(id == discovery_id).first()`. -/
def get_discovery (db : List DiscoveryRow) (discovery_id : Nat) :
    Option DiscoveryRow :=
  (db.filter (fun r => r.id == discovery_id)).head?

/-- crud.get_discoveries: category list is `[1, 2, 3, 4]` unless `all` is
false, in which case it is `[category]`; filter `state_id == 1 AND kind_id IN
list_category`, order by id, optional offset, `limit(limit + 1)`. -/
def get_discoveries (db : List DiscoveryRow) (cursor : Option Nat)
    (limit : Nat) (category : Int) (all : Bool) : List DiscoveryRow :=
  let list_category : List Int := if all then [1, 2, 3, 4] else [category]
  match cursor with
  | none =>
      ((orderDiscoveriesById
        (db.filter (fun r => r.state_id == 1 && list_category.contains r.kind_id))).take
        (limit + 1))
  | some c =>
      (((orderDiscoveriesById
        (db.filter (fun r => r.state_id == 1 && list_category.contains r.kind_id))).drop
        c).take (limit + 1))

end Crud

/-- The filtered, ordered experience rows that sit at and after the cursor
offset: the row universe a page request paginates over. Spelled out so the
pagination claims can quantify over the (limit+1)-th row for the same filter
and cursor. -/
def experiencesAfterCursor (db : List ExperienceRow) (cursor : Option Nat) :
    List ExperienceRow :=
  match cursor with
  | none => orderExperiencesById (db.filter (fun r => r.state_id == 1))
  | some c => (orderExperiencesById (db.filter (fun r => r.state_id == 1))).drop c

/-- schemas.ExperienceResponse. Items are kept as table rows: the
`Experience.from_orm` conversion in the router copies every column verbatim. -/
structure ExperiencePage where
  cursor : Option Nat
  has_more : Bool
  items : List ExperienceRow
  deriving Repr, DecidableEq

namespace ExperiencesApi

/-- experiences_api.get_experiences: fetch `limit + 1` rows via the crud layer;
on a non-empty fetch answer with `has_more = len(experiences) > limit`, the
list truncated to `limit` items, and `cursor = experiences[-1].id` of the
truncated list (or None when it is empty); on an empty fetch raise 404. -/
def get_experiences (db : List ExperienceRow) (cursor : Option Nat)
    (limit : Nat) : Except ApiError ExperiencePage :=
  let experiences := Crud.get_experiences db cursor limit
  if experiences ≠ [] then
    Except.ok
      { cursor := ((experiences.take limit).getLast?).map (fun r => r.id)
        has_more := experiences.length > limit
        items := experiences.take limit }
  else
    Except.error (ApiError.notFound "No experiences found.")

end ExperiencesApi

/-- The filtered ordered experience universe is sorted by ascending id, and so
is every cursor suffix of it. -/
theorem experiencesAfterCursor_sorted (db : List ExperienceRow)
    (cursor : Option Nat) :
    List.Pairwise (fun a b : ExperienceRow => a.id ≤ b.id)
      (experiencesAfterCursor db cursor) := by
  haveI : IsTotal ExperienceRow (fun a b => a.id ≤ b.id) :=
    ⟨fun a b => Nat.le_total a.id b.id⟩
  haveI : IsTrans ExperienceRow (fun a b => a.id ≤ b.id) :=
    ⟨fun a b c hab hbc => le_trans hab hbc⟩
  have hs := List.sorted_insertionSort (fun a b : ExperienceRow => a.id ≤ b.id)
    (db.filter (fun r => r.state_id == 1))
  cases cursor with
  | none => exact hs
  | some c =>
      exact List.Pairwise.sublist (List.drop_sublist c _) hs

/-- The crud fetch is exactly the first `limit + 1` rows of the filtered
ordered universe at the cursor. -/
theorem crud_get_experiences_eq_take (db : List ExperienceRow)
    (cursor : Option Nat) (limit : Nat) :
    Crud.get_experiences db cursor limit
      = (experiencesAfterCursor db cursor).take (limit + 1) := by
  cases cursor <;> rfl

/-- Claim C1: for every list request with page size `limit > 0` and any cursor,
the pagination engine fetches `limit + 1` rows ordered by ascending id, returns
at most `limit` items (themselves in ascending id order), sets `has_more` to
true exactly when a `(limit+1)`-th row existed for the same filter and cursor,
and returns as outgoing cursor the id of the last item of the truncated
(non-empty) page. -/
theorem c1_cursor_pagination (db : List ExperienceRow) (cursor : Option Nat)
    (limit : Nat) (page : ExperiencePage) (hlim : 0 < limit)
    (hok : ExperiencesApi.get_experiences db cursor limit = Except.ok page) :
    page.items.length ≤ limit ∧
    (page.has_more = true ↔ (experiencesAfterCursor db cursor)[limit]? ≠ none) ∧
    page.items ≠ [] ∧
    page.cursor = (page.items.getLast?).map (fun r => r.id) ∧
    List.Pairwise (fun a b : ExperienceRow => a.id ≤ b.id) page.items := by
  have hcrud := crud_get_experiences_eq_take db cursor limit
  simp only [ExperiencesApi.get_experiences] at hok
  split at hok
  case isFalse => exact absurd hok (by simp)
  case isTrue hne =>
    injection hok with hok
    rw [← hok]
    refine ⟨?_, ?_, ?_, rfl, ?_⟩
    · rw [List.length_take]
      exact min_le_left _ _
    · have h2 : (decide (List.length (Crud.get_experiences db cursor limit) > limit) = true)
          ↔ limit < (experiencesAfterCursor db cursor).length := by
        rw [decide_eq_true_iff, hcrud, List.length_take, gt_iff_lt, lt_min_iff]
        simp [Nat.lt_succ_self]
      have h3 : ((experiencesAfterCursor db cursor)[limit]? ≠ none)
          ↔ limit < (experiencesAfterCursor db cursor).length := by
        rw [ne_eq, List.getElem?_eq_none_iff, not_le]
      exact h2.trans h3.symm
    · rw [ne_eq, List.take_eq_nil_iff]
      simp only [not_or]
      exact ⟨Nat.pos_iff_ne_zero.mp hlim, hne⟩
    · have hsorted := experiencesAfterCursor_sorted db cursor
      have hsub : (List.take limit (Crud.get_experiences db cursor limit)).Sublist
          (experiencesAfterCursor db cursor) := by
        refine List.Sublist.trans (List.take_sublist _ _) ?_
        rw [hcrud]
        exact List.take_sublist _ _
      exact List.Pairwise.sublist hsub hsorted

/-- Fixed sample experience row used by concrete witnesses. -/
def expRow (i : Nat) (s : Int) : ExperienceRow :=
  { id := i, title := "hike", description := "a walk", difficulty_id := 1,
    price := [("amount", 10)], duration := 3600,
    img_preview_path := "preview.png", img_paths := ["a.png"], state_id := s }

/-- Three published experiences, the sample table of the spec scenario. -/
def expDb0 : List ExperienceRow := [expRow 1 1, expRow 2 1, expRow 3 1]

/-- The page the spec scenario expects for `cursor=None, limit=2` on three
published rows: two items, `has_more`, cursor = id of the second item. -/
def expPage0 : ExperiencePage :=
  { cursor := some 2, has_more := true, items := [expRow 1 1, expRow 2 1] }

/-- Witness for C1 at the spec scenario `page(cursor=None, limit=2)` against
three published experiences. -/
theorem c1_cursor_pagination_witness :
    (ExperiencesApi.get_experiences expDb0 none 2 = Except.ok expPage0) ∧
    (expPage0.items.length ≤ 2 ∧
      (expPage0.has_more = true ↔ (experiencesAfterCursor expDb0 none)[2]? ≠ none) ∧
      expPage0.items ≠ [] ∧
      expPage0.cursor = (expPage0.items.getLast?).map (fun r => r.id) ∧
      List.Pairwise (fun a b : ExperienceRow => a.id ≤ b.id) expPage0.items) :=
  ⟨by rfl, c1_cursor_pagination expDb0 none 2 expPage0 (by decide) (by rfl)⟩

/-- Fixed sample discovery row used by concrete witnesses. -/
def discRow (i : Nat) (k s : Int) : DiscoveryRow :=
  { id := i, title := "castle", description := "old castle",
    img_preview_path := "prev.png", img_paths := ["c.png"],
    video_paths := ["c.mp4"],
    coordinate_gps := "0101000020E61000000000000000002940CDCCCCCCCC4C4540",
    address := "Via Roma 1", kind_id := k, state_id := s }

/-- Sample discovery table with one row per category, all published. -/
def discDb0 : List DiscoveryRow := [discRow 1 1 1, discRow 2 2 1, discRow 3 3 1]

/-- Claim C9 (implicit): every row returned by the experience or discovery list
operation has `state_id == 1` (and, for discoveries, a `kind_id` within the
requested category set), while the get-by-id operation returns an entity
regardless of its `state_id` (witnessed by an unpublished row it returns). -/
theorem c9_lists_only_published :
    (∀ (db : List ExperienceRow) (cursor : Option Nat) (limit : Nat)
        (r : ExperienceRow),
        r ∈ Crud.get_experiences db cursor limit → r.state_id = 1) ∧
    (∀ (db : List DiscoveryRow) (cursor : Option Nat) (limit : Nat)
        (category : Int) (all : Bool) (r : DiscoveryRow),
        r ∈ Crud.get_discoveries db cursor limit category all →
          r.state_id = 1 ∧
          r.kind_id ∈ (if all then ([1, 2, 3, 4] : List Int) else [category])) ∧
    (∃ (db : List ExperienceRow) (eid : Nat) (r : ExperienceRow),
        Crud.get_experience db eid = some r ∧ r.state_id = 2) := by
  refine ⟨?_, ?_, ⟨[expRow 5 2], 5, expRow 5 2, rfl, rfl⟩⟩
  · intro db cursor limit r hr
    have hmem : r ∈ db.filter (fun r => r.state_id == 1) := by
      cases cursor with
      | none =>
          have h1 := List.mem_of_mem_take hr
          exact (List.perm_insertionSort (fun a b : ExperienceRow => a.id ≤ b.id) _).mem_iff.mp h1
      | some c =>
          have h1 := List.mem_of_mem_drop (List.mem_of_mem_take hr)
          exact (List.perm_insertionSort (fun a b : ExperienceRow => a.id ≤ b.id) _).mem_iff.mp h1
    have := (List.mem_filter.mp hmem).2
    simpa using this
  · intro db cursor limit category all r hr
    have hmem : r ∈ db.filter
        (fun r => r.state_id == 1 &&
          (if all then ([1, 2, 3, 4] : List Int) else [category]).contains r.kind_id) := by
      cases cursor with
      | none =>
          have h1 := List.mem_of_mem_take hr
          exact (List.perm_insertionSort (fun a b : DiscoveryRow => a.id ≤ b.id) _).mem_iff.mp h1
      | some c =>
          have h1 := List.mem_of_mem_drop (List.mem_of_mem_take hr)
          exact (List.perm_insertionSort (fun a b : DiscoveryRow => a.id ≤ b.id) _).mem_iff.mp h1
    have h2 := (List.mem_filter.mp hmem).2
    rw [Bool.and_eq_true] at h2
    refine ⟨by simpa using h2.1, ?_⟩
    have h3 := h2.2
    simpa [List.contains_iff_exists_mem_beq] using h3

/-- Witness for C9: concrete published rows are returned by the list
operations on the sample tables. -/
theorem c9_lists_only_published_witness :
    (expRow 1 1).state_id = 1 ∧
    ((discRow 1 1 1).state_id = 1 ∧
      (discRow 1 1 1).kind_id ∈ (if true then ([1, 2, 3, 4] : List Int) else [1])) ∧
    (∃ (db : List ExperienceRow) (eid : Nat) (r : ExperienceRow),
        Crud.get_experience db eid = some r ∧ r.state_id = 2) :=
  ⟨c9_lists_only_published.1 expDb0 none 2 (expRow 1 1) (by decide),
   c9_lists_only_published.2.1 discDb0 none 2 1 true (discRow 1 1 1) (by decide),
   c9_lists_only_published.2.2⟩

/-- The search for the regex `\(([^)]+)\)` of discovery_api.extract_coordinates:
scan for the leftmost position holding a literal `(` followed by a non-empty
run of non-`)` characters that is closed by a literal `)`; answer that run.
At a position where the pattern cannot match, the scan moves one character
right, as the regex engine does. -/
def findParenGroup : List Char → Option (List Char)
  | [] => none
  | c :: rest =>
    if c = '(' ∧ rest.takeWhile (fun d => d ≠ ')') ≠ [] ∧
        rest.drop (rest.takeWhile (fun d => d ≠ ')')).length ≠ [] then
      some (rest.takeWhile (fun d => d ≠ ')'))
    else findParenGroup rest

/-- discovery_api.extract_coordinates: `re.search(r"\(([^)]+)\)", point_str)`,
returning the captured group on a match and the empty string otherwise. -/
def extract_coordinates (point_str : String) : String :=
  match findParenGroup point_str.data with
  | some g => String.mk g
  | none => ""

/-- Value of one hexadecimal digit, `none` on any other character. -/
def hexVal (c : Char) : Option Nat :=
  if '0' ≤ c ∧ c ≤ '9' then some (c.toNat - '0'.toNat)
  else if 'a' ≤ c ∧ c ≤ 'f' then some (c.toNat - 'a'.toNat + 10)
  else if 'A' ≤ c ∧ c ≤ 'F' then some (c.toNat - 'A'.toNat + 10)
  else none

/-- Byte list of a hex character list; `none` (binascii.Error) on odd length or
a non-hex character. -/
def unhexBytes : List Char → Option (List Nat)
  | [] => some []
  | [_] => none
  | c1 :: c2 :: rest =>
    match hexVal c1, hexVal c2, unhexBytes rest with
    | some h1, some h2, some bs => some ((16 * h1 + h2) :: bs)
    | _, _, _ => none

/-- binascii.unhexlify on the hex string of the stored geometry. -/
def unhexlify (s : String) : Option (List Nat) := unhexBytes s.data

/-- schemas.ewkb_to_wkt: unhexlify the stored hex, load the bytes with shapely
and render the geometry as WKT. The shapely collaborator is a parameter
`shapelyWKT`; it answers `none` when `shapely.wkb.loads` raises or when the
loaded geometry is falsy, the two cases in which the source function falls
through. Any exception is caught (`except Exception`), printed, and the
function returns `None`: there is no path that returns an empty string. -/
def ewkb_to_wkt (shapelyWKT : List Nat → Option String) (geom_hex : String) :
    Option String :=
  match unhexlify geom_hex with
  | some geom_bytes => shapelyWKT geom_bytes
  | none => none

/-- The decode path of every discovery read:
`extract_coordinates(ewkb_to_wkt(discovery.coordinate_gps))`. When
`ewkb_to_wkt` returns `None`, `re.search(pattern, None)` inside
`extract_coordinates` raises `TypeError`; that raise is the error case. -/
def decode_stored_coordinate (shapelyWKT : List Nat → Option String)
    (geom_hex : String) : Except ApiError String :=
  match ewkb_to_wkt shapelyWKT geom_hex with
  | some wkt => Except.ok (extract_coordinates wkt)
  | none => Except.error ApiError.typeError

/-- discovery_api.create / update: the stored geometry of an input coordinate
pair is the WKT literal `f"POINT ({discovery.coordinate_gps})"`. -/
def encode_coordinate (coordinate_gps : String) : String :=
  "POINT (" ++ coordinate_gps ++ ")"

/-- A run of non-`)` characters closed by `)` is taken whole by the scan. -/
theorem takeWhile_notParen (g b : List Char) (hg : ')' ∉ g) :
    List.takeWhile (fun d => d ≠ ')') (g ++ ')' :: b) = g := by
  induction g with
  | nil => simp
  | cons c g ih =>
      simp only [List.mem_cons, not_or] at hg
      have hc : c ≠ ')' := fun h => hg.1 h.symm
      simp only [List.cons_append, List.takeWhile_cons]
      rw [if_pos (by simpa using hc), ih hg.2]

/-- The regex scan finds the first parenthesised group: prefixes without `(`
are skipped, and a non-empty `)`-free group closed by `)` is answered. -/
theorem findParenGroup_append (a g b : List Char) (ha : '(' ∉ a) (hg : g ≠ [])
    (hg2 : ')' ∉ g) :
    findParenGroup (a ++ '(' :: (g ++ ')' :: b)) = some g := by
  induction a with
  | nil =>
      simp only [List.nil_append, findParenGroup]
      rw [takeWhile_notParen g b hg2, List.drop_left]
      rw [if_pos ⟨trivial, hg, by simp⟩]
  | cons c a ih =>
      simp only [List.mem_cons, not_or] at ha
      have hc : c ≠ '(' := fun h => ha.1 h.symm
      simp only [List.cons_append, findParenGroup]
      rw [if_neg (fun hcon => hc hcon.1)]
      exact ih ha.2

/-- Claim C5 (amended): on a stored geometry whose parse succeeds, decoding
extracts exactly the substring between the first matching parentheses of the
WKT rendering; but on an unparseable input `ewkb_to_wkt` returns `None` (not
the empty string), and the composed decode path then raises `TypeError` at
`re.search` instead of returning the empty string — only `extract_coordinates`
alone is total on strings. -/
theorem c5_decode_path (shapelyWKT : List Nat → Option String)
    (geom_hex : String) :
    (∀ wkt : String, ewkb_to_wkt shapelyWKT geom_hex = some wkt →
        decode_stored_coordinate shapelyWKT geom_hex
          = Except.ok (extract_coordinates wkt)) ∧
    (unhexlify geom_hex = none → ewkb_to_wkt shapelyWKT geom_hex = none) ∧
    (ewkb_to_wkt shapelyWKT geom_hex = none →
        decode_stored_coordinate shapelyWKT geom_hex
          = Except.error ApiError.typeError) ∧
    (∀ (a g b : List Char), '(' ∉ a → g ≠ [] → ')' ∉ g →
        extract_coordinates (String.mk (a ++ '(' :: (g ++ ')' :: b)))
          = String.mk g) := by
  refine ⟨?_, ?_, ?_, ?_⟩
  · intro wkt h
    simp [decode_stored_coordinate, h]
  · intro h
    simp [ewkb_to_wkt, h]
  · intro h
    simp [decode_stored_coordinate, h]
  · intro a g b ha hg hg2
    simp [extract_coordinates, findParenGroup_append a g b ha hg hg2]

/-- Concrete stand-in for the shapely collaborator, rendering every parsed
geometry as the WKT of one fixed point. On the unparseable counterexample
inputs it is never consulted: unhexlify fails first. -/
def shapelyPoint0 : List Nat → Option String :=
  fun _ => some "POINT (12.5 41.9)"

/-- Counterexample to claim C5 as stated: on the unparseable stored geometry
"zz" (not a hex string), the decode path of a discovery read errors with
`TypeError` — `ewkb_to_wkt` returned `None` and `re.search(pattern, None)`
raises — rather than returning the empty string. -/
theorem c5_counterexample_decode_raises :
    decode_stored_coordinate shapelyPoint0 "zz" = Except.error ApiError.typeError ∧
    decode_stored_coordinate shapelyPoint0 "zz" ≠ Except.ok "" := by
  constructor
  · rfl
  · intro h
    rw [show decode_stored_coordinate shapelyPoint0 "zz"
        = Except.error ApiError.typeError from rfl] at h
    exact Except.noConfusion h

/-- Witness for the amended C5 at concrete inputs: a parseable geometry "00"
decodes through extraction; the non-hex "zz" gives `None` and then the
`TypeError`; extraction picks the first parenthesised group. -/
theorem c5_decode_path_witness :
    (decode_stored_coordinate shapelyPoint0 "00"
        = Except.ok (extract_coordinates "POINT (12.5 41.9)")) ∧
    (ewkb_to_wkt shapelyPoint0 "zz" = none) ∧
    (decode_stored_coordinate shapelyPoint0 "zz"
        = Except.error ApiError.typeError) ∧
    (extract_coordinates (String.mk (['P', 'O', 'I', 'N', 'T', ' '] ++ '(' ::
        (['1', '2', '.', '5', ' ', '4', '1', '.', '9'] ++ ')' :: [])))
      = String.mk ['1', '2', '.', '5', ' ', '4', '1', '.', '9']) :=
  ⟨(c5_decode_path shapelyPoint0 "00").1 "POINT (12.5 41.9)" rfl,
   (c5_decode_path shapelyPoint0 "zz").2.1 rfl,
   (c5_decode_path shapelyPoint0 "zz").2.2.1 rfl,
   (c5_decode_path shapelyPoint0 "zz").2.2.2 ['P', 'O', 'I', 'N', 'T', ' ']
     ['1', '2', '.', '5', ' ', '4', '1', '.', '9'] []
     (by decide) (by decide) (by decide)⟩

/-- Claim C6: for every coordinate string without parentheses, wrapping it as
a WKT point literal (the encode of discovery create/update) and then
extracting the substring between the first matching parentheses (the decode)
reproduces the original string exactly. -/
theorem c6_coordinate_roundtrip (s : String) (h1 : '(' ∉ s.data)
    (h2 : ')' ∉ s.data) :
    extract_coordinates (encode_coordinate s) = s := by
  obtain ⟨l⟩ := s
  by_cases hl : l = []
  · subst hl; rfl
  · have hdata : (encode_coordinate (String.mk l)).data
        = ['P', 'O', 'I', 'N', 'T', ' '] ++ '(' :: (l ++ ')' :: []) := by
      simp [encode_coordinate, String.data_append]
    simp only [extract_coordinates, hdata,
      findParenGroup_append ['P', 'O', 'I', 'N', 'T', ' '] l [] (by decide) hl h2]

/-- Witness for C6 at the spec's round-trip example "12.5 41.9". -/
theorem c6_coordinate_roundtrip_witness :
    extract_coordinates (encode_coordinate "12.5 41.9") = "12.5 41.9" :=
  c6_coordinate_roundtrip "12.5 41.9" (by decide) (by decide)

/-- crud.distance_from_discoveries: one batched query producing, for every
discovery row, the pair `(id, ST_Distance(coordinate_gps,
ST_GeomFromText(my_position)))`. The geodesic distance itself is computed by
PostGIS, an external collaborator, modelled as the parameter `stDistance`
(stored geometry, position text) -> meters; its real-valued output is carried
as a rational. -/
def distance_from_discoveries (stDistance : String → String → ℚ)
    (db : List DiscoveryRow) (my_position : String) : List (Nat × ℚ) :=
  db.map (fun d => (d.id, stDistance d.coordinate_gps my_position))

namespace DiscoveryApi

/-- discovery_api.distance: wrap the caller position as `POINT({my_position})`,
run the batched distance query; on a non-empty result return the mapping
`{id: meters / 1000}` (the dict comprehension is modelled as the association
list in row order); on an empty result raise 404. -/
def distance (stDistance : String → String → ℚ) (db : List DiscoveryRow)
    (my_position : String) : Except ApiError (List (Nat × ℚ)) :=
  let distances_in_m :=
    distance_from_discoveries stDistance db ("POINT(" ++ my_position ++ ")")
  if distances_in_m ≠ [] then
    Except.ok (distances_in_m.map (fun p => (p.1, p.2 / 1000)))
  else
    Except.error (ApiError.notFound "No discoveries found.")

end DiscoveryApi

/-- Claim C7: for every distance request with origin point `my_position`, when
the discovery set is non-empty the endpoint returns, for each discovery id,
the stored distance value divided by exactly 1000; when the discovery set is
empty it fails with NotFound and returns no mapping. -/
theorem c7_distance_kilometers (stDistance : String → String → ℚ)
    (db : List DiscoveryRow) (my_position : String) :
    (db ≠ [] →
      DiscoveryApi.distance stDistance db my_position
        = Except.ok (db.map (fun d =>
            (d.id,
             stDistance d.coordinate_gps ("POINT(" ++ my_position ++ ")")
               / 1000)))) ∧
    (db = [] →
      DiscoveryApi.distance stDistance db my_position
        = Except.error (ApiError.notFound "No discoveries found.")) := by
  constructor
  · intro h
    have hne :
        distance_from_discoveries stDistance db ("POINT(" ++ my_position ++ ")")
          ≠ [] := by
      simp [distance_from_discoveries, h]
    simp only [DiscoveryApi.distance]
    rw [if_pos hne]
    simp only [distance_from_discoveries, List.map_map]
    rfl
  · intro h
    subst h
    rfl

/-- Concrete stand-in for the PostGIS distance collaborator: 2500 meters for
every pair. -/
def stDist0 : String → String → ℚ := fun _ _ => 2500

/-- Witness for C7: on the sample discovery table every id is mapped to
meters / 1000, and on an empty table the spec scenario 404 is raised. -/
theorem c7_distance_kilometers_witness :
    (DiscoveryApi.distance stDist0 discDb0 "12.0 41.0"
      = Except.ok (discDb0.map (fun d =>
          (d.id,
           stDist0 d.coordinate_gps ("POINT(" ++ "12.0 41.0" ++ ")")
             / 1000)))) ∧
    (DiscoveryApi.distance stDist0 [] "12.0 41.0"
      = Except.error (ApiError.notFound "No discoveries found.")) :=
  ⟨(c7_distance_kilometers stDist0 discDb0 "12.0 41.0").1 (by decide),
   (c7_distance_kilometers stDist0 [] "12.0 41.0").2 rfl⟩

/-- Row of the reflected `tourist_user_likes` join table
(`models.TouristUserLikes`), as the code creates it: the (tourist, experience)
pair. -/
structure LikeRow where
  tourist_user_id : Nat
  experience_id : Nat
  deriving Repr, DecidableEq

namespace Crud

/-- crud.get_like: filter the likes table on both pair components and take
`first()`. -/
def get_like (likes : List LikeRow) (user_id experience_id : Nat) :
    Option LikeRow :=
  (likes.filter (fun l =>
    l.tourist_user_id == user_id && l.experience_id == experience_id)).head?

/-- crud.create_like: `db.add(new_like); db.commit()` appends the new row. -/
def create_like (likes : List LikeRow) (new_like : LikeRow) : List LikeRow :=
  likes ++ [new_like]

/-- crud.delete_like: `db.delete(like_to_remove)` removes that row. -/
def delete_like (likes : List LikeRow) (like_to_remove : LikeRow) :
    List LikeRow :=
  likes.erase like_to_remove

end Crud

namespace TouristApi

/-- tourist_api.toggle_like: 404 unless the experience exists; then delete the
like row if one is found, else create one; the returned boolean is the new
like-state. -/
def toggle_like (experiences : List ExperienceRow) (likes : List LikeRow)
    (me_id experience_id : Nat) : Except ApiError (List LikeRow × Bool) :=
  match Crud.get_experience experiences experience_id with
  | some _ =>
    match Crud.get_like likes me_id experience_id with
    | some already_liked => Except.ok (Crud.delete_like likes already_liked, false)
    | none =>
        Except.ok (Crud.create_like likes
          { tourist_user_id := me_id, experience_id := experience_id }, true)
  | none => Except.error (ApiError.notFound "Experience not found.")

/-- The observable like-state of a pair: whether crud.get_like finds a row. -/
def liked (likes : List LikeRow) (user_id experience_id : Nat) : Bool :=
  (Crud.get_like likes user_id experience_id).isSome

end TouristApi

/-- The like row of a (tourist, experience) pair, as tourist_api.toggle_like
constructs it. -/
def mkLike (u e : Nat) : LikeRow :=
  { tourist_user_id := u, experience_id := e }

/-- The two-component filter of crud.get_like tests exactly equality with the
pair row. -/
theorem like_pred_eq (u e : Nat) (l : LikeRow) :
    (l.tourist_user_id == u && l.experience_id == e) = (l == mkLike u e) := by
  cases l with
  | mk t x =>
      rw [Bool.eq_iff_iff]
      simp [mkLike]

/-- crud.get_like is the head of the rows equal to the pair row. -/
theorem get_like_filter (likes : List LikeRow) (u e : Nat) :
    Crud.get_like likes u e
      = (likes.filter (fun l => l == mkLike u e)).head? := by
  simp only [Crud.get_like, like_pred_eq]

/-- crud.get_like finds nothing exactly when the pair row is absent. -/
theorem get_like_eq_none_iff (likes : List LikeRow) (u e : Nat) :
    Crud.get_like likes u e = none ↔ mkLike u e ∉ likes := by
  rw [get_like_filter, List.head?_eq_none_iff, List.filter_eq_nil_iff]
  constructor
  · intro h hmem
    exact h _ hmem (by simp)
  · intro h a ha hbeq
    have haeq : a = mkLike u e := by simpa using hbeq
    exact h (haeq ▸ ha)

/-- A row found by crud.get_like is the pair row and belongs to the table. -/
theorem get_like_eq_some (likes : List LikeRow) (u e : Nat) (l : LikeRow)
    (h : Crud.get_like likes u e = some l) :
    l = mkLike u e ∧ l ∈ likes := by
  rw [get_like_filter] at h
  have hmem : l ∈ likes.filter (fun a => a == mkLike u e) := by
    cases hf : likes.filter (fun a => a == mkLike u e) with
    | nil => rw [hf] at h; exact absurd h (by simp)
    | cons c t =>
        rw [hf] at h
        injection h with h
        rw [← h]
        exact List.mem_cons_self c t
  have hm := List.mem_filter.mp hmem
  exact ⟨by simpa using hm.2, hm.1⟩

/-- The boolean like-state of a pair is its membership in the likes table. -/
theorem liked_iff_mem (likes : List LikeRow) (u e : Nat) :
    TouristApi.liked likes u e = true ↔ mkLike u e ∈ likes := by
  cases hg : Crud.get_like likes u e with
  | none =>
      have hnm := (get_like_eq_none_iff likes u e).mp hg
      simp [TouristApi.liked, hg, hnm]
  | some a =>
      obtain ⟨h1, h2⟩ := get_like_eq_some likes u e a hg
      have : mkLike u e ∈ likes := h1 ▸ h2
      simp [TouristApi.liked, hg, this]

/-- Claim C8: for every tourist and existing experience, toggle_like is an
involution on the like-state: given that a Like row exists at most once per
pair, a toggle flips the like-state (creates-if-absent, deletes-if-present),
preserves the at-most-once invariant, and two consecutive toggles restore the
like-state of every pair with the total Like count unchanged. -/
theorem c8_toggle_like_involution (experiences : List ExperienceRow)
    (likes : List LikeRow) (me_id experience_id : Nat) (exp0 : ExperienceRow)
    (hexp : Crud.get_experience experiences experience_id = some exp0)
    (hinv : ∀ u e : Nat, likes.count (mkLike u e) ≤ 1) :
    ∃ (likes1 : List LikeRow) (r1 : Bool) (likes2 : List LikeRow) (r2 : Bool),
      TouristApi.toggle_like experiences likes me_id experience_id
        = Except.ok (likes1, r1) ∧
      TouristApi.toggle_like experiences likes1 me_id experience_id
        = Except.ok (likes2, r2) ∧
      r1 = !TouristApi.liked likes me_id experience_id ∧
      TouristApi.liked likes1 me_id experience_id
        = !TouristApi.liked likes me_id experience_id ∧
      r2 = !r1 ∧
      (∀ u e : Nat, likes1.count (mkLike u e) ≤ 1) ∧
      (∀ u e : Nat, TouristApi.liked likes2 u e = TouristApi.liked likes u e) ∧
      likes2.length = likes.length := by
  cases hg : Crud.get_like likes me_id experience_id with
  | none =>
      have hnm : mkLike me_id experience_id ∉ likes :=
        (get_like_eq_none_iff likes me_id experience_id).mp hg
      have hliked : TouristApi.liked likes me_id experience_id = false := by
        simp [TouristApi.liked, hg]
      have ht1 : TouristApi.toggle_like experiences likes me_id experience_id
          = Except.ok (likes ++ [mkLike me_id experience_id], true) := by
        simp [TouristApi.toggle_like, hexp, hg, Crud.create_like, mkLike]
      have hg1 : Crud.get_like (likes ++ [mkLike me_id experience_id]) me_id
          experience_id = some (mkLike me_id experience_id) := by
        rw [get_like_filter, List.filter_append]
        have hf0 : likes.filter (fun a => a == mkLike me_id experience_id) = [] := by
          rw [List.filter_eq_nil_iff]
          intro a ha hbeq
          have haeq : a = mkLike me_id experience_id := by simpa using hbeq
          exact hnm (haeq ▸ ha)
        rw [hf0]
        simp
      have herase : (likes ++ [mkLike me_id experience_id]).erase
          (mkLike me_id experience_id) = likes := by
        rw [List.erase_append_right _ hnm]
        simp
      have ht2 : TouristApi.toggle_like experiences
          (likes ++ [mkLike me_id experience_id]) me_id experience_id
          = Except.ok (likes, false) := by
        simp only [TouristApi.toggle_like, hexp, hg1, Crud.delete_like]
        rw [herase]
      refine ⟨likes ++ [mkLike me_id experience_id], true, likes, false,
        ht1, ht2, by simp [hliked], ?_, rfl, ?_, fun u e => rfl, rfl⟩
      · rw [hliked]
        simp [TouristApi.liked, hg1]
      · intro u e
        rw [List.count_append]
        by_cases hy : mkLike u e = mkLike me_id experience_id
        · rw [hy]
          have h0 : likes.count (mkLike me_id experience_id) = 0 :=
            List.count_eq_zero.mpr hnm
          simp [h0]
        · have h0 : List.count (mkLike u e) [mkLike me_id experience_id] = 0 := by
            rw [List.count_singleton]
            simp [Ne.symm hy]
          rw [h0]
          exact hinv u e
  | some lrow =>
      obtain ⟨hl, hlm⟩ := get_like_eq_some likes me_id experience_id lrow hg
      subst hl
      have hmem : mkLike me_id experience_id ∈ likes := hlm
      have hliked : TouristApi.liked likes me_id experience_id = true := by
        simp [TouristApi.liked, hg]
      have hcount1 : likes.count (mkLike me_id experience_id) = 1 :=
        le_antisymm (hinv me_id experience_id) (List.count_pos_iff.mpr hmem)
      have ht1 : TouristApi.toggle_like experiences likes me_id experience_id
          = Except.ok (likes.erase (mkLike me_id experience_id), false) := by
        simp [TouristApi.toggle_like, hexp, hg, Crud.delete_like]
      have hcount0 : (likes.erase (mkLike me_id experience_id)).count
          (mkLike me_id experience_id) = 0 := by
        rw [List.count_erase_self, hcount1]
      have hnm1 : mkLike me_id experience_id ∉
          likes.erase (mkLike me_id experience_id) :=
        List.count_eq_zero.mp hcount0
      have hg1 : Crud.get_like (likes.erase (mkLike me_id experience_id)) me_id
          experience_id = none :=
        (get_like_eq_none_iff _ me_id experience_id).mpr hnm1
      have ht2 : TouristApi.toggle_like experiences
          (likes.erase (mkLike me_id experience_id)) me_id experience_id
          = Except.ok
              (likes.erase (mkLike me_id experience_id)
                ++ [mkLike me_id experience_id], true) := by
        simp only [TouristApi.toggle_like, hexp]
        rw [hg1]
        rfl
      have hcnt : ∀ y : LikeRow,
          (likes.erase (mkLike me_id experience_id)
            ++ [mkLike me_id experience_id]).count y = likes.count y := by
        intro y
        rw [List.count_append]
        by_cases hy : y = mkLike me_id experience_id
        · subst hy
          rw [List.count_erase_self, hcount1]
          simp [hcount1]
        · rw [List.count_erase_of_ne hy, List.count_singleton]
          simp [Ne.symm hy]
      refine ⟨likes.erase (mkLike me_id experience_id), false,
        likes.erase (mkLike me_id experience_id) ++ [mkLike me_id experience_id],
        true, ht1, ht2, by simp [hliked], ?_, rfl, ?_, ?_, ?_⟩
      · rw [hliked]
        simp [TouristApi.liked, hg1]
      · intro u e
        exact le_trans
          ((List.erase_sublist (mkLike me_id experience_id) likes).count_le _)
          (hinv u e)
      · intro u e
        rw [Bool.eq_iff_iff, liked_iff_mem, liked_iff_mem,
          ← List.count_pos_iff, ← List.count_pos_iff, hcnt]
      · rw [List.length_append, List.length_singleton,
          List.length_erase_of_mem hmem,
          Nat.sub_add_cancel (List.length_pos_of_mem hmem)]

/-- Witness for C8 at the spec scenario: tourist 5 toggling experience 2 of
the sample table, starting from an empty likes table. -/
theorem c8_toggle_like_involution_witness :
    ∃ (likes1 : List LikeRow) (r1 : Bool) (likes2 : List LikeRow) (r2 : Bool),
      TouristApi.toggle_like expDb0 [] 5 2 = Except.ok (likes1, r1) ∧
      TouristApi.toggle_like expDb0 likes1 5 2 = Except.ok (likes2, r2) ∧
      r1 = !TouristApi.liked [] 5 2 ∧
      TouristApi.liked likes1 5 2 = !TouristApi.liked [] 5 2 ∧
      r2 = !r1 ∧
      (∀ u e : Nat, likes1.count (mkLike u e) ≤ 1) ∧
      (∀ u e : Nat, TouristApi.liked likes2 u e = TouristApi.liked [] u e) ∧
      likes2.length = ([] : List LikeRow).length :=
  c8_toggle_like_involution expDb0 [] 5 2 (expRow 2 1) (by rfl)
    (fun u e => by simp)

/-- Row of the reflected `tourist_users` table (`models.TouristUser`), with the
columns the code reads and writes. `password` holds the bcrypt hash. -/
structure TouristRow where
  id : Nat
  name : String
  surname : String
  email : String
  img_profile : String
  state_id : Int
  telephone : String
  password : String
  deriving Repr, DecidableEq

/-- Row of the reflected `host_users` table (`models.HostUser`). -/
structure HostRow where
  id : Nat
  name : String
  email : String
  img_profile : String
  state_id : Int
  password : String
  deriving Repr, DecidableEq

/-- schemas.TouristUserCreate: the signup payload. -/
structure TouristUserCreate where
  name : String
  surname : String
  email : String
  img_profile : String
  state_id : Int
  telephone : String
  password : String
  deriving Repr, DecidableEq

/-- schemas.DiscoveryBase: the discovery create/update payload;
`coordinate_gps` is Optional. -/
structure DiscoveryPayload where
  title : String
  description : String
  img_preview_path : String
  img_paths : List String
  video_paths : List String
  coordinate_gps : Option String
  address : String
  kind_id : Int
  state_id : Int
  deriving Repr, DecidableEq

namespace Crud

/-- crud.get_tourist_user: filter by id, `first()`. -/
def get_tourist_user (db : List TouristRow) (user_id : Nat) :
    Option TouristRow :=
  (db.filter (fun r => r.id == user_id)).head?

/-- crud.get_tourist_user_by_email: filter by email, `first()`. -/
def get_tourist_user_by_email (db : List TouristRow) (email : String) :
    Option TouristRow :=
  (db.filter (fun r => r.email == email)).head?

/-- crud.get_host_user: filter by id, `first()`. -/
def get_host_user (db : List HostRow) (user_id : Nat) : Option HostRow :=
  (db.filter (fun r => r.id == user_id)).head?

/-- crud.create_tourist_user: `db.add; db.commit`. The unique-email constraint
lives in the store; its IntegrityError is translated by
exception.CustomExceptionsClass into the generic duplicate 400. -/
def create_tourist_user (db : List TouristRow) (tourist_user : TouristRow) :
    Except ApiError (List TouristRow) :=
  if db.any (fun r => r.email == tourist_user.email) then
    Except.error (ApiError.badRequest
      "Value already registered. (Value can be an email a title or a popup message text).")
  else
    Except.ok (db ++ [tourist_user])

end Crud

namespace TouristApi

/-- tourist_api.update_my_info: each field overwrites the stored row only when
the query parameter is truthy: a non-empty string, or for `new_state_id`
(int | None) a present non-zero integer. -/
def update_my_info_merge (old : TouristRow)
    (new_name new_surname new_email new_img_profile : String)
    (new_state_id : Option Int) (new_telephone : String) : TouristRow :=
  let r1 := if new_name ≠ "" then { old with name := new_name } else old
  let r2 := if new_surname ≠ "" then { r1 with surname := new_surname } else r1
  let r3 := if new_email ≠ "" then { r2 with email := new_email } else r2
  let r4 := if new_img_profile ≠ "" then
      { r3 with img_profile := new_img_profile } else r3
  let r5 := match new_state_id with
    | some s => if s ≠ 0 then { r4 with state_id := s } else r4
    | none => r4
  let r6 := if new_telephone ≠ "" then
      { r5 with telephone := new_telephone } else r5
  r6

/-- tourist_api.register_me: reject the payload when
`state_id < 0 or state_id > 2`, else hash the password (bcrypt collaborator
`hash_password`) and persist the new row; `nextId` stands for the serial
primary key the store assigns. -/
def register_me (hash_password : String → String) (db : List TouristRow)
    (nextId : Nat) (t : TouristUserCreate) : Except ApiError (List TouristRow) :=
  if t.state_id < 0 ∨ t.state_id > 2 then
    Except.error (ApiError.badRequest "state_id must be either 1 or 2.")
  else
    Crud.create_tourist_user db
      { id := nextId, name := t.name, surname := t.surname, email := t.email,
        img_profile := t.img_profile, state_id := t.state_id,
        telephone := t.telephone, password := hash_password t.password }

end TouristApi

namespace DiscoveryApi

/-- discovery_api.update: merge the payload onto the stored row, field by
field, guarded by Python truthiness. The `video_paths` branch of the source
reads `discovery.video_paths = discovery.video_paths`: the row's own value is
assigned back, so a truthy payload value never reaches the row. A truthy
`coordinate_gps` is stored wrapped as a WKT point literal. -/
def update_merge (old : DiscoveryRow) (d : DiscoveryPayload) : DiscoveryRow :=
  let r1 := if d.title ≠ "" then { old with title := d.title } else old
  let r2 := if d.description ≠ "" then
      { r1 with description := d.description } else r1
  let r3 := if d.video_paths ≠ [] then
      { r2 with video_paths := r2.video_paths } else r2
  let r4 := match d.coordinate_gps with
    | some c => if c ≠ "" then
        { r3 with coordinate_gps := encode_coordinate c } else r3
    | none => r3
  let r5 := if d.img_preview_path ≠ "" then
      { r4 with img_preview_path := d.img_preview_path } else r4
  let r6 := if d.img_paths ≠ [] then { r5 with img_paths := d.img_paths } else r5
  let r7 := if d.state_id ≠ 0 then { r6 with state_id := d.state_id } else r6
  let r8 := if d.kind_id ≠ 0 then { r7 with kind_id := d.kind_id } else r7
  r8

/-- discovery_api.create: reject the payload when
`state_id < 0 or state_id > 2`, else persist the new row with the coordinate
wrapped as a WKT point literal (an absent coordinate is rendered the way the
Python f-string prints `None`). -/
def create (db : List DiscoveryRow) (nextId : Nat) (d : DiscoveryPayload) :
    Except ApiError (List DiscoveryRow) :=
  if d.state_id < 0 ∨ d.state_id > 2 then
    Except.error (ApiError.badRequest "state_id must be either 1 or 2.")
  else
    Except.ok (db ++
      [{ id := nextId, title := d.title, description := d.description,
         img_preview_path := d.img_preview_path, img_paths := d.img_paths,
         video_paths := d.video_paths,
         coordinate_gps := encode_coordinate
           (match d.coordinate_gps with | some c => c | none => "None"),
         address := d.address, kind_id := d.kind_id, state_id := d.state_id }])

end DiscoveryApi

/-- Update payload whose only truthy field is `video_paths`. -/
def discPayloadVideo : DiscoveryPayload :=
  { title := "", description := "", img_preview_path := "", img_paths := [],
    video_paths := ["new.mp4"], coordinate_gps := none, address := "",
    kind_id := 0, state_id := 0 }

/-- Claim C2, evaluated at the failing input: the discovery partial update
receives the truthy payload `video_paths = ["new.mp4"]`, yet the merged row
keeps its old `video_paths` — the source line assigns the row's own value back
to itself — so a truthy payload field does not overwrite the stored field. -/
theorem c2_video_paths_not_updated :
    (DiscoveryApi.update_merge (discRow 1 1 1) discPayloadVideo).video_paths
        = (discRow 1 1 1).video_paths ∧
    discPayloadVideo.video_paths ≠ [] ∧
    (DiscoveryApi.update_merge (discRow 1 1 1) discPayloadVideo).video_paths
        ≠ discPayloadVideo.video_paths :=
  ⟨rfl, by decide, by decide⟩

/-- The bcrypt hashing collaborator, stood in by a concrete tagging
function. -/
def hash0 : String → String := fun s => "hashed:" ++ s

/-- Signup payload parametrised over `state_id`. -/
def touristPayload0 (s : Int) : TouristUserCreate :=
  { name := "Ann", surname := "Rossi", email := "ann@example.com",
    img_profile := "p.png", state_id := s, telephone := "123",
    password := "pw" }

/-- Claim C3, evaluated at concrete inputs: out-of-range `state_id` 3 and -1
are rejected with the exact message of the spec scenario, but `state_id = 0`
— also outside {1, 2} — slips through the `state_id < 0 or state_id > 2`
check of both tourist signup and discovery create and is persisted. -/
theorem c3_state_id_zero_slips_through :
    (TouristApi.register_me hash0 [] 1 (touristPayload0 3)
        = Except.error (ApiError.badRequest "state_id must be either 1 or 2.")) ∧
    (TouristApi.register_me hash0 [] 1 (touristPayload0 (-1))
        = Except.error (ApiError.badRequest "state_id must be either 1 or 2.")) ∧
    (TouristApi.register_me hash0 [] 1 (touristPayload0 0)
        = Except.ok [{ id := 1, name := "Ann", surname := "Rossi",
                       email := "ann@example.com", img_profile := "p.png",
                       state_id := 0, telephone := "123",
                       password := hash0 "pw" }]) ∧
    (DiscoveryApi.create [] 1 discPayloadVideo
        = Except.ok [{ id := 1, title := "", description := "",
                       img_preview_path := "", img_paths := [],
                       video_paths := ["new.mp4"],
                       coordinate_gps := "POINT (None)", address := "",
                       kind_id := 0, state_id := 0 }]) :=
  ⟨rfl, rfl, rfl, rfl⟩

/-- The role claim and subject identifier embedded in a bearer credential. -/
structure TokenPayload where
  user_id : Nat
  role : String
  deriving Repr, DecidableEq

/-- A bearer credential as the evaluator sees it: its claims together with the
outcome of the signature/expiry validation. -/
structure Token where
  valid : Bool
  user_id : Nat
  role : String
  deriving Repr, DecidableEq

/-- Modelled from the spec: `admin_api.is_jwt_valid` lives in
api_routers/admin_api.py, which is not among the sources. Per the spec the
evaluator "parses/validates a signed credential" and fails on a bad
signature/format or on expiry, otherwise exposing the embedded role claim and
subject identifier; a credential is modelled as carrying that validation
outcome with its claims. -/
def is_jwt_valid (token : Token) : Option TokenPayload :=
  if token.valid then some { user_id := token.user_id, role := token.role }
  else none

namespace Authentication

/-- utility.authentication_data.Authentication.roles. -/
def roles : List String := ["Admin", "Host", "Tourist"]

/-- authentication_data.get_tourist_host_priviledge: the role claim must be
roles[1] (Host) or roles[2] (Tourist). No database is consulted: the function
has no database access at all. -/
def get_tourist_host_priviledge (token : Token) : Except ApiError Bool :=
  match is_jwt_valid token with
  | some payload =>
      if payload.role = roles[1]! ∨ payload.role = roles[2]! then
        Except.ok true
      else Except.error (ApiError.unauthorized "Unauthorized user.")
  | none => Except.error (ApiError.unauthorized "Incorrect token")

/-- authentication_data.get_admin_priviledge: the role claim must be roles[0]
(Admin). -/
def get_admin_priviledge (token : Token) : Except ApiError Bool :=
  match is_jwt_valid token with
  | some payload =>
      if payload.role = roles[0]! then Except.ok true
      else Except.error (ApiError.unauthorized "Unauthorized user.")
  | none => Except.error (ApiError.unauthorized "Incorrect token")

/-- authentication_data.get_tourist_host_admin_priviledge: any of the three
roles; answers the role claim. No database is consulted. -/
def get_tourist_host_admin_priviledge (token : Token) :
    Except ApiError String :=
  match is_jwt_valid token with
  | some payload =>
      if payload.role = roles[0]! ∨ payload.role = roles[1]!
          ∨ payload.role = roles[2]! then
        Except.ok payload.role
      else Except.error (ApiError.unauthorized "Unauthorized user.")
  | none => Except.error (ApiError.unauthorized "Incorrect token")

end Authentication

namespace TouristApi

/-- tourist_api.get_current_tourist: validate the credential, require the
Tourist role, resolve the persisted record (404 when absent), and require
`state_id == 1` (401 deactivated otherwise). The schemas.TouristUser built by
the source copies the row fields verbatim, so the row stands for the returned
identity. -/
def get_current_tourist (token : Token) (db : List TouristRow) :
    Except ApiError TouristRow :=
  match is_jwt_valid token with
  | some payload =>
      if payload.role = Authentication.roles[2]! then
        match Crud.get_tourist_user db payload.user_id with
        | none => Except.error (ApiError.notFound "Tourist not found")
        | some db_tourist_user =>
            if db_tourist_user.state_id = 1 then Except.ok db_tourist_user
            else Except.error
              (ApiError.unauthorized "This user has been deactivated.")
      else Except.error (ApiError.unauthorized "Unauthorized user.")
  | none => Except.error (ApiError.unauthorized "Incorrect token")

end TouristApi

namespace HostApi

/-- host_api.get_current_host: as get_current_tourist, for the Host role over
the host_users table. -/
def get_current_host (token : Token) (db : List HostRow) :
    Except ApiError HostRow :=
  match is_jwt_valid token with
  | some payload =>
      if payload.role = Authentication.roles[1]! then
        match Crud.get_host_user db payload.user_id with
        | none => Except.error (ApiError.notFound "Host not found")
        | some db_host_user =>
            if db_host_user.state_id = 1 then Except.ok db_host_user
            else Except.error
              (ApiError.unauthorized "This user has been deactivated.")
      else Except.error (ApiError.unauthorized "Unauthorized user.")
  | none => Except.error (ApiError.unauthorized "Incorrect token")

end HostApi

/-- A non-empty head is a member of its list. -/
theorem head?_some_mem {α : Type} {l : List α} {a : α}
    (h : l.head? = some a) : a ∈ l := by
  cases l with
  | nil => exact absurd h (by simp)
  | cons c t =>
      injection h with h
      rw [← h]
      exact List.mem_cons_self c t

/-- The row resolved by crud.get_tourist_user belongs to the table. -/
theorem get_tourist_user_mem (db : List TouristRow) (uid : Nat)
    (u : TouristRow) (h : Crud.get_tourist_user db uid = some u) : u ∈ db :=
  (List.mem_filter.mp (head?_some_mem h)).1

/-- The row resolved by crud.get_host_user belongs to the table. -/
theorem get_host_user_mem (db : List HostRow) (uid : Nat) (u : HostRow)
    (h : Crud.get_host_user db uid = some u) : u ∈ db :=
  (List.mem_filter.mp (head?_some_mem h)).1

/-- Claim C4 (amended): the single-role dependencies get_current_tourist and
get_current_host do resolve the subject's persisted record — NotFound when it
is absent, a deactivation failure when its `state_id != 1`, an identity only
for an existing record with `state_id == 1`. The combined host-or-tourist
evaluator, however, checks only the role claim and consults no record. -/
theorem c4_role_evaluators (token : Token) (tdb : List TouristRow)
    (hdb : List HostRow) :
    (token.valid = true → token.role = "Tourist" →
      ((Crud.get_tourist_user tdb token.user_id = none →
          TouristApi.get_current_tourist token tdb
            = Except.error (ApiError.notFound "Tourist not found")) ∧
        (∀ u : TouristRow, Crud.get_tourist_user tdb token.user_id = some u →
          ¬u.state_id = 1 →
          TouristApi.get_current_tourist token tdb
            = Except.error
                (ApiError.unauthorized "This user has been deactivated.")) ∧
        (∀ u : TouristRow,
          TouristApi.get_current_tourist token tdb = Except.ok u →
          u ∈ tdb ∧ u.state_id = 1))) ∧
    (token.valid = true → token.role = "Host" →
      ((Crud.get_host_user hdb token.user_id = none →
          HostApi.get_current_host token hdb
            = Except.error (ApiError.notFound "Host not found")) ∧
        (∀ u : HostRow, Crud.get_host_user hdb token.user_id = some u →
          ¬u.state_id = 1 →
          HostApi.get_current_host token hdb
            = Except.error
                (ApiError.unauthorized "This user has been deactivated.")) ∧
        (∀ u : HostRow, HostApi.get_current_host token hdb = Except.ok u →
          u ∈ hdb ∧ u.state_id = 1))) ∧
    (token.valid = true → (token.role = "Host" ∨ token.role = "Tourist") →
      Authentication.get_tourist_host_priviledge token = Except.ok true) := by
  refine ⟨?_, ?_, ?_⟩
  · intro hv hr
    refine ⟨?_, ?_, ?_⟩
    · intro hnone
      simp [TouristApi.get_current_tourist, is_jwt_valid, hv, hr,
        Authentication.roles, hnone]
    · intro u hu hst
      simp [TouristApi.get_current_tourist, is_jwt_valid, hv, hr,
        Authentication.roles, hu, hst]
    · intro u hok
      simp only [TouristApi.get_current_tourist, is_jwt_valid, hv, if_true] at hok
      rw [if_pos (by simp [hr, Authentication.roles])] at hok
      cases hu : Crud.get_tourist_user tdb token.user_id with
      | none => rw [hu] at hok; exact absurd hok (by simp)
      | some v =>
          rw [hu] at hok
          simp only at hok
          by_cases hst : v.state_id = 1
          · rw [if_pos hst] at hok
            injection hok with hok
            rw [← hok]
            exact ⟨get_tourist_user_mem tdb token.user_id v hu, hst⟩
          · rw [if_neg hst] at hok
            exact absurd hok (by simp)
  · intro hv hr
    refine ⟨?_, ?_, ?_⟩
    · intro hnone
      simp [HostApi.get_current_host, is_jwt_valid, hv, hr,
        Authentication.roles, hnone]
    · intro u hu hst
      simp [HostApi.get_current_host, is_jwt_valid, hv, hr,
        Authentication.roles, hu, hst]
    · intro u hok
      simp only [HostApi.get_current_host, is_jwt_valid, hv, if_true] at hok
      rw [if_pos (by simp [hr, Authentication.roles])] at hok
      cases hu : Crud.get_host_user hdb token.user_id with
      | none => rw [hu] at hok; exact absurd hok (by simp)
      | some v =>
          rw [hu] at hok
          simp only at hok
          by_cases hst : v.state_id = 1
          · rw [if_pos hst] at hok
            injection hok with hok
            rw [← hok]
            exact ⟨get_host_user_mem hdb token.user_id v hu, hst⟩
          · rw [if_neg hst] at hok
            exact absurd hok (by simp)
  · intro hv hr
    rcases hr with h | h <;>
      simp [Authentication.get_tourist_host_priviledge, is_jwt_valid, hv, h,
        Authentication.roles]

/-- A validly signed Host credential for subject 7. -/
def hostToken0 : Token := { valid := true, user_id := 7, role := "Host" }

/-- Counterexample to claim C4 as stated: the evaluator for the allowed-roles
set {Host, Tourist} grants access on the Host role claim alone — it takes no
database and so resolves no persisted record: here it answers success, never
the NotFound the claim requires for a subject with no record. -/
theorem c4_counterexample_no_record_lookup :
    Authentication.get_tourist_host_priviledge hostToken0 = Except.ok true ∧
    Authentication.get_tourist_host_priviledge hostToken0
      ≠ Except.error (ApiError.notFound "Host not found") := by
  constructor
  · rfl
  · intro h
    rw [show Authentication.get_tourist_host_priviledge hostToken0
        = Except.ok true from rfl] at h
    exact Except.noConfusion h

/-- A validly signed Tourist credential for subject 7. -/
def touristToken0 : Token := { valid := true, user_id := 7, role := "Tourist" }

/-- An active persisted tourist record for subject 7. -/
def touristRow0 : TouristRow :=
  { id := 7, name := "Ann", surname := "Rossi", email := "ann@example.com",
    img_profile := "p.png", state_id := 1, telephone := "123",
    password := "hashed:pw" }

/-- A deactivated persisted tourist record for subject 7. -/
def touristRow2 : TouristRow :=
  { id := 7, name := "Bea", surname := "Bianchi", email := "bea@example.com",
    img_profile := "q.png", state_id := 2, telephone := "456",
    password := "hashed:pw2" }

/-- One-row tourist table holding the active record. -/
def touristDb0 : List TouristRow := [touristRow0]

/-- One-row tourist table holding the deactivated record. -/
def touristDb2 : List TouristRow := [touristRow2]

/-- Witness for the amended C4 at concrete inputs: missing record gives 404,
deactivated record gives the 401, an active record is a returned identity, and
the combined evaluator succeeds with no record anywhere. -/
theorem c4_role_evaluators_witness :
    (TouristApi.get_current_tourist touristToken0 []
        = Except.error (ApiError.notFound "Tourist not found")) ∧
    (TouristApi.get_current_tourist touristToken0 touristDb2
        = Except.error
            (ApiError.unauthorized "This user has been deactivated.")) ∧
    (touristRow0 ∈ touristDb0 ∧ touristRow0.state_id = 1) ∧
    (Authentication.get_tourist_host_priviledge hostToken0 = Except.ok true) :=
  ⟨((c4_role_evaluators touristToken0 [] []).1 rfl rfl).1 rfl,
   ((c4_role_evaluators touristToken0 touristDb2 []).1 rfl rfl).2.1
     touristRow2 rfl (by decide),
   ((c4_role_evaluators touristToken0 touristDb0 []).1 rfl rfl).2.2
     touristRow0 rfl,
   (c4_role_evaluators hostToken0 [] []).2.2 rfl (Or.inl rfl)⟩

/-- Modelled from the spec: `admin_api.create_jwt` lives in
api_routers/admin_api.py, which is not among the sources. Per the spec the
issued token "embeds role + subject id"; the token is modelled as those
embedded claims. -/
def create_jwt (data : TokenPayload) : TokenPayload := data

/-- The signin response `{"access_token": ..., "token_type": "bearer"}`. -/
structure TokenOut where
  access_token : TokenPayload
  token_type : String
  deriving Repr, DecidableEq

namespace TouristApi

/-- tourist_api.authenticate_tourist: raise 404 when no tourist has the email;
return the tourist id when the bcrypt check (collaborator `check_password`,
of the input password against the stored hash) succeeds; fall off the end —
return None — when it fails. -/
def authenticate_tourist (check_password : String → String → Bool)
    (db : List TouristRow) (email password : String) :
    Except ApiError (Option Nat) :=
  match Crud.get_tourist_user_by_email db email with
  | some tourist =>
      if check_password password tourist.password then
        Except.ok (some tourist.id)
      else Except.ok none
  | none => Except.error (ApiError.notFound "User doesn't exist-")

/-- tourist_api.signin: propagate authenticate_tourist's 404; on a truthy
returned id issue the token (Tourist role claim, bearer type); on a falsy id
(None, or the integer 0) raise 401 Incorrect username or password. -/
def signin (check_password : String → String → Bool) (db : List TouristRow)
    (email password : String) : Except ApiError TokenOut :=
  match authenticate_tourist check_password db email password with
  | Except.error e => Except.error e
  | Except.ok idOpt =>
      match idOpt with
      | some id =>
          if id ≠ 0 then
            Except.ok
              { access_token := create_jwt
                  { user_id := id, role := Authentication.roles[2]! },
                token_type := "bearer" }
          else
            Except.error
              (ApiError.unauthorized "Incorrect username or password")
      | none =>
          Except.error (ApiError.unauthorized "Incorrect username or password")

end TouristApi

/-- Claim C10 (implicit): tourist signin distinguishes its two failure causes
— an email matching no tourist account fails with the 404 NotFound raised in
authenticate_tourist, while an existing email with a non-matching password
falls through to signin's 401 Unauthorized — so the observable failure reveals
whether an email is registered. -/
theorem c10_signin_failure_discrimination
    (check_password : String → String → Bool) (db : List TouristRow)
    (email password : String) :
    (Crud.get_tourist_user_by_email db email = none →
      TouristApi.signin check_password db email password
        = Except.error (ApiError.notFound "User doesn't exist-")) ∧
    (∀ t : TouristRow, Crud.get_tourist_user_by_email db email = some t →
      check_password password t.password = false →
      TouristApi.signin check_password db email password
        = Except.error
            (ApiError.unauthorized "Incorrect username or password")) := by
  constructor
  · intro h
    simp [TouristApi.signin, TouristApi.authenticate_tourist, h]
  · intro t h hc
    simp [TouristApi.signin, TouristApi.authenticate_tourist, h, hc]

/-- The bcrypt verification collaborator, stood in by the concrete check
matching the `hash0` tagging function. -/
def check0 : String → String → Bool :=
  fun input hashed => ("hashed:" ++ input) == hashed

/-- Witness for C10: against the one-row tourist table, an unknown email gets
the 404, and the known email with a wrong password gets the 401. -/
theorem c10_signin_failure_discrimination_witness :
    (TouristApi.signin check0 touristDb0 "bob@example.com" "pw"
        = Except.error (ApiError.notFound "User doesn't exist-")) ∧
    (TouristApi.signin check0 touristDb0 "ann@example.com" "wrong"
        = Except.error
            (ApiError.unauthorized "Incorrect username or password")) :=
  ⟨(c10_signin_failure_discrimination check0 touristDb0 "bob@example.com"
      "pw").1 rfl,
   (c10_signin_failure_discrimination check0 touristDb0 "ann@example.com"
      "wrong").2 touristRow0 rfl (by decide)⟩
